import Mathlib

/-!
Verification development for the dt-slurm-proxy job lifecycle code.

The Python modules `constants.py`, `task_monitoring.py` and
`task_submission.py` are shallowly embedded below.  Remote command
execution (paramiko SSH) and the MongoDB collection are the only
impure collaborators: the SSH channel is modelled by an oracle
function from the command string to its captured output, and the
`jobs` collection is modelled by a list of records threaded through
the store operations.  A raised Python exception is modelled by the
`Except` error channel; caught-and-handled exceptions are folded into
the return value exactly where the source catches them.
-/

set_option maxRecDepth 10000

namespace DtSlurmProxy

/-- Python exceptions that the embedded code can raise.  `typeError`
models subscripting `None`, `keyError` a missing dictionary key,
`valueError` the explicit raises and failed `int()` conversions, and
`pyMongoError` the database-driver errors that several functions
catch.  In this pure model the store itself never fails, so
`pyMongoError` is never produced, but the variant is kept so that the
`except pymongo.errors.PyMongoError` handlers can be embedded
faithfully. -/
inductive PyErr where
  | typeError
  | keyError (k : String)
  | valueError (msg : String)
  | pyMongoError
deriving Repr, DecidableEq

/-! ### String primitives

The Lean core string functions (`String.splitOn`, `String.trim`,
`String.toNat?`, ...) are implemented on byte positions and do not
reduce inside the kernel, so the Python string operations the source
uses are re-implemented here by structural recursion on the character
list of the string. -/

/-- Auxiliary splitter: accumulates the current field (reversed). -/
def splitOnCharAux (sep : Char) : List Char → List Char → List (List Char)
  | [], acc => [acc.reverse]
  | c :: cs, acc =>
    if c == sep then acc.reverse :: splitOnCharAux sep cs []
    else splitOnCharAux sep cs (c :: acc)

/-- Python `s.split(sep)` for a one-character separator (the source
only splits on `"\n"` and `"|"`).  On the empty string it returns
`[""]`, as Python does for an explicit separator. -/
def pySplitChar (s : String) (sep : Char) : List String :=
  (splitOnCharAux sep s.data []).map String.mk

/-- ASCII whitespace.  (Python `str.strip` also strips some Unicode
whitespace; none of it occurs in the modelled data.) -/
def isWhitespaceChar (c : Char) : Bool :=
  c == ' ' || c == '\t' || c == '\n' || c == '\r'

/-- Drop leading whitespace characters. -/
def dropLeadingWs : List Char → List Char
  | [] => []
  | c :: cs => if isWhitespaceChar c then dropLeadingWs cs else c :: cs

/-- Python `s.strip()`. -/
def pyStrip (s : String) : String :=
  String.mk (dropLeadingWs (dropLeadingWs s.data.reverse).reverse)

/-- Value of a decimal digit run, `none` on a non-digit. -/
def digitsToNatAux : List Char → Nat → Option Nat
  | [], acc => some acc
  | c :: cs, acc =>
    if 48 ≤ c.toNat && c.toNat ≤ 57 then
      digitsToNatAux cs (acc * 10 + (c.toNat - 48))
    else none

/-- Parse a non-empty run of decimal digits. -/
def myToNat? (cs : List Char) : Option Nat :=
  match cs with
  | [] => none
  | _ => digitsToNatAux cs 0

/-- A Python dictionary with string keys and values, as produced by
`dict(zip(keys, components))` in the source: an association list. -/
abbrev PyDict := List (String × String)

/-- Dictionary subscript read `d[k]`: raises `KeyError` when the key is
missing. -/
def pyGet (d : PyDict) (k : String) : Except PyErr String :=
  match d.find? (fun p => p.fst == k) with
  | some p => .ok p.snd
  | none => .error (.keyError k)

/-- Dictionary subscript assignment `d[k] = v`. -/
def pySet (d : PyDict) (k v : String) : PyDict :=
  if (d.find? (fun p => p.fst == k)).isSome then
    d.map (fun p => if p.fst == k then (k, v) else p)
  else
    d ++ [(k, v)]

/-- Subscripting a value that may be `None`: `None["state"]` raises
`TypeError`. -/
def pySubscript (md : Option PyDict) (k : String) : Except PyErr String :=
  match md with
  | none => .error .typeError
  | some d => pyGet d k

/-- Python `int(s)`: optional surrounding whitespace, an optional sign,
then decimal digits.  (Digit-grouping underscores and non-ASCII digits,
which CPython also accepts, are not modelled; no claim depends on
them.)  Returns `none` where `int()` raises `ValueError`. -/
def pyIntParse (s : String) : Option Int :=
  match (pyStrip s).data with
  | '-' :: rest => (myToNat? rest).map (fun n => -(n : Int))
  | '+' :: rest => (myToNat? rest).map (fun n => (n : Int))
  | t => (myToNat? t).map (fun n => (n : Int))

/-- Python `os.path.join(a, b)` for two components. -/
def pyPathJoin (a b : String) : String :=
  match b.data with
  | '/' :: _ => b
  | _ =>
    match a.data.reverse with
    | [] => b
    | '/' :: _ => a ++ b
    | _ => a ++ "/" ++ b

/-! ## constants.py -/

/-- constants.py line 89: `BAD_SLURM_JOB_ID = -1`. -/
def BAD_SLURM_JOB_ID : Int := -1

/-- constants.py line 90: `SLURM_TEST_JOB_ID = 123`. -/
def SLURM_TEST_JOB_ID : Int := 123

/-- constants.py lines 91-101: the fixed synthetic snapshot returned
for the test job id. -/
def SLURM_TEST_JOB_STATUS : PyDict :=
  [("job_id", "123"), ("job_name", "abcd1234"), ("state", "COMPLETED"),
   ("user", "username"), ("partition", "partition"), ("time", "UNLIMITED"),
   ("start", "2025-04-14T08:57:46"), ("end", "2025-04-14T11:00:44"),
   ("elapsed", "02:02:58")]

/-- constants.py lines 106-139: `SLURM_STATE`, the status-code table.
Note that it has exactly eight keys: neither `CANCELLED` nor `UNKNOWN`
has an entry. -/
def SLURM_STATE : List (String × String × String) :=
  [("COMPLETED", "CD", "The job has completed successfully."),
   ("COMPLETING", "CG", "The job is finishing but some processes are still active."),
   ("FAILED", "F", "The job terminated with a non-zero exit code and failed to execute."),
   ("PENDING", "PD", "The job is waiting for resource allocation. It will eventually run."),
   ("PREEMPTED", "PR", "The job was terminated because of preemption by another job."),
   ("RUNNING", "R", "The job currently is allocated to a node and is running."),
   ("SUSPENDED", "S", "A running job has been stopped with its cores released to other jobs."),
   ("STOPPED", "ST", "A running job has been stopped with its cores retained.")]

/-- constants.py line 140: `SLURM_STATE_UNKNOWN = 'UNKNOWN'`. -/
def SLURM_STATE_UNKNOWN : String := "UNKNOWN"

/-- constants.py line 141:
`SLURM_STATE_END_STATES = ["COMPLETED", "FAILED", "CANCELLED", "SUSPENDED"]`. -/
def SLURM_STATE_END_STATES : List String :=
  ["COMPLETED", "FAILED", "CANCELLED", "SUSPENDED"]

/-- task_monitoring.py line 20: `SLURM_STATES_ALLOWED = SLURM_STATE.keys()`. -/
def SLURM_STATES_ALLOWED : List String := SLURM_STATE.map (fun p => p.fst)

/-- One entry of the `TASK_DESCRIPTION` registry (constants.py
lines 44-51). -/
structure TaskDescriptor where
  cmd : String
  default_params : List String
  description : String
  notification_queue : String
deriving Repr, DecidableEq

/-- constants.py lines 44-51: the process-wide task registry, which
holds the single task `echo_hello_world`. -/
def TASK_DESCRIPTION : List (String × TaskDescriptor) :=
  [("echo_hello_world",
    { cmd := "echo", default_params := [],
      description := "Prints a generic hello world! message",
      notification_queue := "hello" })]

/-! ## Data model: the task envelope and the tracked-job record -/

/-- The `slurm` member of the task envelope (spec section 6; consumed
by `define_sbatch_cmd_for_task`). -/
structure SlurmParams where
  job_name : String
  output : String
  error : String
  nodes : Int
  mem : String
  cpus_per_task : Int
  ntasks_per_node : Int
  partition : String
  time : String
deriving Repr, DecidableEq

/-- The `dirs` member of the task envelope. -/
structure TaskDirs where
  input : String
  output : String
  error : String
deriving Repr, DecidableEq

/-- The task envelope of a submission, with the five required keys
`name, params, uuid, slurm, dirs`. -/
structure Task where
  name : String
  params : List String
  uuid : String
  slurm : SlurmParams
  dirs : TaskDirs
deriving Repr, DecidableEq

/-- One document of the `jobs` collection:
`{"slurm_job_id": ..., "slurm_job_state": ..., "task": ...}`. -/
structure TrackedJob where
  slurm_job_id : Int
  slurm_job_state : String
  task : Task
deriving Repr, DecidableEq

/-- The body of a `POST /monitor/` registration:
`{"slurm_job_id": ..., "task": ...}` (the fields `monitor_new_slurm_job`
reads). -/
structure MonitorJob where
  slurm_job_id : Int
  task : Task
deriving Repr, DecidableEq

/-! ## The jobs collection, modelled as a list of documents -/

/-- `jobs_coll.find_one({"slurm_job_id": id})`: first document with the
given id, if any. -/
def find_one (store : List TrackedJob) (slurm_job_id : Int) : Option TrackedJob :=
  store.find? (fun j => j.slurm_job_id == slurm_job_id)

/-- `jobs_coll.insert_one(job)`. -/
def insert_one (store : List TrackedJob) (job : TrackedJob) : List TrackedJob :=
  store ++ [job]

/-- `jobs_coll.delete_one({"slurm_job_id": id})`: removes the first
matching document; the second component is the `deleted_count`. -/
def delete_one : List TrackedJob → Int → List TrackedJob × Nat
  | [], _ => ([], 0)
  | j :: rest, slurm_job_id =>
    if j.slurm_job_id == slurm_job_id then (rest, 1)
    else
      let r := delete_one rest slurm_job_id
      (j :: r.fst, r.snd)

/-- `jobs_coll.update_one({"slurm_job_id": id}, {"$set": {"slurm_job_state": st}})`:
updates the first matching document; the second component is the
`modified_count`, which is 0 when no document matches or the stored
value already equals the new one. -/
def update_one : List TrackedJob → Int → String → List TrackedJob × Nat
  | [], _, _ => ([], 0)
  | j :: rest, slurm_job_id, st =>
    if j.slurm_job_id == slurm_job_id then
      if j.slurm_job_state == st then (j :: rest, 0)
      else ({ j with slurm_job_state := st } :: rest, 1)
    else
      let r := update_one rest slurm_job_id st
      (j :: r.fst, r.snd)

/-- task_monitoring.py lines 152-176: `update_job_state_in_monitor_db`.
Returns `False` when `modified_count == 0`. -/
def update_job_state_in_monitor_db (store : List TrackedJob)
    (slurm_job_id : Int) (new_slurm_job_state : String) :
    List TrackedJob × Bool :=
  let r := update_one store slurm_job_id new_slurm_job_state
  (r.fst, r.snd != 0)

/-- task_monitoring.py lines 179-197:
`remove_job_from_monitor_db_by_slurm_job_id`.  Returns `False` when
`deleted_count == 0`. -/
def remove_job_from_monitor_db_by_slurm_job_id (store : List TrackedJob)
    (slurm_job_id : Int) : List TrackedJob × Bool :=
  let r := delete_one store slurm_job_id
  (r.fst, r.snd != 0)

/-! ## task_monitoring.py: the scheduler query -/

/-- The keys zipped against the pipe-separated accounting fields
(task_monitoring.py lines 252-262). -/
def job_status_keys : List String :=
  ["job_id", "job_name", "state", "user", "partition", "time", "start",
   "end", "elapsed"]

/-- The `sacct -j <id> ...` command string assembled at
task_monitoring.py lines 234-246. -/
def sacctJobCmd (slurm_job_id : Int) : String :=
  String.intercalate " "
    ["sacct", "-j", toString slurm_job_id,
     "--format=JobID,Jobname%-128,state,User,partition,time,start,end,elapsed",
     "--noheader", "--parsable2"]

/-- The `sacct --state <state> ...` command string assembled at
task_monitoring.py lines 377-389. -/
def sacctStateCmd (slurm_job_state : String) : String :=
  String.intercalate " "
    ["sacct", "--state", slurm_job_state,
     "--format=JobID,Jobname%-128,state,User,partition,time,start,end,elapsed",
     "--noheader", "--parsable2"]

/-- task_monitoring.py lines 219-266:
`get_current_slurm_job_metadata_by_slurm_job_id`.  The SSH channel is
the oracle `exec` from the remote command to its decoded standard
output.  The argument is `Option Int` so that a Python `None` argument
can be expressed alongside integers; `if not slurm_job_id:` is true
exactly for `None` and `0`.  The second component of the result is the
list of remote commands executed.  The dictionary subscript at line 264
can raise `KeyError` when the record has fewer than three fields, hence
the `Except` result. -/
def get_current_slurm_job_metadata_by_slurm_job_id
    (exec : String → String) (slurm_job_id : Option Int) :
    Except PyErr (Option PyDict) × List String :=
  match slurm_job_id with
  | none => (.ok none, [])
  | some i =>
    if i == 0 then (.ok none, [])
    else if i == SLURM_TEST_JOB_ID then (.ok (some SLURM_TEST_JOB_STATUS), [])
    else
      let cmd := sacctJobCmd i
      let job_status_str := pyStrip (exec cmd)
      if job_status_str == "" then (.ok none, [cmd])
      else
        let job_status_components :=
          pySplitChar ((pySplitChar job_status_str '\n').headD "") '|'
        let job_status := List.zip job_status_keys job_status_components
        match pyGet job_status "state" with
        | .error e => (.error e, [cmd])
        | .ok st =>
          if SLURM_STATES_ALLOWED.contains st then
            (.ok (some job_status), [cmd])
          else
            (.ok (some (pySet job_status "state" SLURM_STATE_UNKNOWN)), [cmd])

/-! ## task_monitoring.py: registration and the reconciler -/

/-- Observable store and notification actions performed by the
monitoring code, in program order.  `notify` is a call of
`process_job_state_change` (the notification placeholder),
`removeFromDb` a call of `remove_job_from_monitor_db_by_slurm_job_id`,
and `updateStateInDb` a call of `update_job_state_in_monitor_db`. -/
inductive Event where
  | notify (slurm_job_id : Int) (old_state new_state : String)
  | removeFromDb (slurm_job_id : Int)
  | updateStateInDb (slurm_job_id : Int) (new_state : String)
deriving Repr, DecidableEq

/-- task_monitoring.py lines 87-122: `add_job_to_monitor_db`.  When the
given state is `UNKNOWN` the scheduler is re-queried (lines 103-108,
outside the `try`, so an exception there propagates).  Inside the
`try`, the document is inserted only when no document with the id
exists, and `True` is returned unconditionally; `False` is returned
only on a `PyMongoError`, which the pure store model never raises. -/
def add_job_to_monitor_db (exec : String → String) (slurm_job_id : Int)
    (slurm_job_state : String) (slurm_job_task_metadata : Task)
    (store : List TrackedJob) : Except PyErr (List TrackedJob × Bool) :=
  let resolved : Except PyErr String :=
    if slurm_job_state == SLURM_STATE_UNKNOWN then
      match (get_current_slurm_job_metadata_by_slurm_job_id exec
              (some slurm_job_id)).fst with
      | .error e => .error e
      | .ok (some current_slurm_job_metadata) =>
        pyGet current_slurm_job_metadata "state"
      | .ok none => .ok slurm_job_state
    else .ok slurm_job_state
  match resolved with
  | .error e => .error e
  | .ok st =>
    let job : TrackedJob :=
      { slurm_job_id := slurm_job_id, slurm_job_state := st,
        task := slurm_job_task_metadata }
    match find_one store slurm_job_id with
    | none => .ok (insert_one store job, true)
    | some _ => .ok (store, true)

/-- task_monitoring.py lines 53-84: `monitor_new_slurm_job`.  Returns
the updated store, the notification events emitted, and the boolean
result of the source function. -/
def monitor_new_slurm_job (exec : String → String) (store : List TrackedJob)
    (job : MonitorJob) : Except PyErr (List TrackedJob × List Event × Bool) :=
  match (get_current_slurm_job_metadata_by_slurm_job_id exec
          (some job.slurm_job_id)).fst with
  | .error e => .error e
  | .ok none => .ok (store, [], false)
  | .ok (some slurm_job_status_metadata) =>
    match pyGet slurm_job_status_metadata "state" with
    | .error e => .error e
    | .ok slurm_job_state =>
      if SLURM_STATE_END_STATES.contains slurm_job_state then
        .ok (store,
             [.notify job.slurm_job_id SLURM_STATE_UNKNOWN slurm_job_state],
             true)
      else
        match add_job_to_monitor_db exec job.slurm_job_id slurm_job_state
                job.task store with
        | .error e => .error e
        | .ok (store2, result) => .ok (store2, [], result)

/-- The body of the `for job in jobs:` loop of `poll_slurm_jobs`
(task_monitoring.py lines 279-302) for one tracked job.  Note the
source order: `current_slurm_job_state = slurm_job_status_metadata["state"]`
at line 285 runs before the `if not slurm_job_status_metadata:` check at
line 287, so when the query returns `None` the subscript raises
`TypeError` and the deletion branch below it is unreachable. -/
def pollOneJob (exec : String → String) (store : List TrackedJob)
    (job : TrackedJob) : Except PyErr (List TrackedJob × List Event) :=
  match (get_current_slurm_job_metadata_by_slurm_job_id exec
          (some job.slurm_job_id)).fst with
  | .error e => .error e
  | .ok slurm_job_status_metadata =>
    match pySubscript slurm_job_status_metadata "state" with
    | .error e => .error e
    | .ok current_slurm_job_state =>
      if slurm_job_status_metadata.isNone then
        -- lines 287-289, dead: the subscript above already raised on None
        .ok ((remove_job_from_monitor_db_by_slurm_job_id store
               job.slurm_job_id).fst, [.removeFromDb job.slurm_job_id])
      else if job.slurm_job_state != current_slurm_job_state then
        let new_slurm_job_state :=
          if SLURM_STATES_ALLOWED.contains current_slurm_job_state then
            current_slurm_job_state
          else SLURM_STATE_UNKNOWN
        if SLURM_STATE_END_STATES.contains new_slurm_job_state then
          .ok ((remove_job_from_monitor_db_by_slurm_job_id store
                 job.slurm_job_id).fst,
               [.notify job.slurm_job_id job.slurm_job_state
                  new_slurm_job_state,
                .removeFromDb job.slurm_job_id])
        else
          .ok ((update_job_state_in_monitor_db store job.slurm_job_id
                 new_slurm_job_state).fst,
               [.updateStateInDb job.slurm_job_id new_slurm_job_state])
      else .ok (store, [])

/-- The `for` loop of `poll_slurm_jobs`: iterates over the snapshot of
documents taken at entry (`jobs_coll.find()`) while threading the
evolving store.  On a raised exception the store and events produced so
far are kept (side effects persist) and the error is reported; within
`pollOneJob` every store action happens after all raise points, so no
partial per-job effect is lost. -/
def pollJobs (exec : String → String) :
    List TrackedJob → List TrackedJob → List Event →
    List TrackedJob × List Event × Option PyErr
  | [], store, events => (store, events, none)
  | job :: rest, store, events =>
    match pollOneJob exec store job with
    | .error e => (store, events, some e)
    | .ok (store2, events2) => pollJobs exec rest store2 (events ++ events2)

/-- The outcome of one reconciliation pass: the final store, the
notification and store events in emission order, and the exception that
escaped `poll_slurm_jobs`, if any. -/
structure PollResult where
  store : List TrackedJob
  events : List Event
  uncaught : Option PyErr
deriving Repr, DecidableEq

/-- task_monitoring.py lines 269-304: `poll_slurm_jobs`.  The whole loop
is wrapped in `try ... except pymongo.errors.PyMongoError`, so only a
`PyMongoError` is caught (and logged); any other exception escapes the
pass. -/
def poll_slurm_jobs (exec : String → String) (store : List TrackedJob) :
    PollResult :=
  match pollJobs exec store store [] with
  | (s, events, some .pyMongoError) =>
    { store := s, events := events, uncaught := none }
  | (s, events, err) => { store := s, events := events, uncaught := err }

/-! ## task_monitoring.py: the query-by-state endpoint -/

/-- Parse one pipe-separated accounting record and fold an unrecognized
state to `UNKNOWN` (task_monitoring.py lines 395-411, one iteration of
the loop). -/
def parseStatusLine (line : String) : Except PyErr PyDict :=
  let job_status_components := pySplitChar line '|'
  let job_status_instance := List.zip job_status_keys job_status_components
  match pyGet job_status_instance "state" with
  | .error e => .error e
  | .ok st =>
    if SLURM_STATES_ALLOWED.contains st then .ok job_status_instance
    else .ok (pySet job_status_instance "state" SLURM_STATE_UNKNOWN)

/-- task_monitoring.py lines 364-412:
`get_slurm_jobs_metadata_by_slurm_job_state`. -/
def get_slurm_jobs_metadata_by_slurm_job_state (exec : String → String)
    (slurm_job_state : String) : Except PyErr (Option (List PyDict)) :=
  if slurm_job_state == "" then .ok none
  else
    let cmd := sacctStateCmd slurm_job_state
    let job_status_strs := pyStrip (exec cmd)
    if job_status_strs == "" then .ok none
    else
      match (pySplitChar job_status_strs '\n').mapM parseStatusLine with
      | .error e => .error e
      | .ok jobs => .ok (some jobs)

/-- task_monitoring.py lines 415-432: the
`GET /monitor/slurm_job_state/<state>` handler.  The result is the HTTP
status, the jobs payload, and the error message, if any. -/
def get_by_slurm_job_state (exec : String → String)
    (slurm_job_state : String) :
    Except PyErr (Nat × Option (List PyDict) × Option String) :=
  if ¬ SLURM_STATES_ALLOWED.contains slurm_job_state then
    .ok (400, none, some "Invalid state key")
  else
    match get_slurm_jobs_metadata_by_slurm_job_state exec slurm_job_state with
    | .error e => .error e
    | .ok jobs => .ok (200, jobs, none)

/-! ## task_submission.py -/

/-- task_submission.py lines 124-131: `define_task_cmd`.  Raises
`ValueError` when the task name is not a key of `TASK_DESCRIPTION`;
otherwise joins the registered command with the client parameters. -/
def define_task_cmd (task_name : String) (task_params : List String) :
    Except PyErr String :=
  match TASK_DESCRIPTION.find? (fun p => p.fst == task_name) with
  | none => .error (.valueError ("Task " ++ task_name ++ " is not defined"))
  | some p => .ok (String.intercalate " " (p.snd.cmd :: task_params))

/-- The list `cmd_comps` assembled by `define_sbatch_cmd_for_task`
(task_submission.py lines 92-118): the semicolon-joined `mkdir -p`
commands, then the `sbatch --parsable` invocation with the `--time`
flag present only when `slurm.time` is non-empty, ending in the
`--wrap` argument around the task command. -/
def sbatch_cmd_comps (task : Task) : Except PyErr (List String) :=
  let dir_cmd := String.intercalate " ; "
    ["mkdir -p " ++ task.dirs.input,
     "mkdir -p " ++ task.dirs.output,
     "mkdir -p " ++ task.dirs.error]
  let flag_comps :=
    ["sbatch", "--parsable",
     "--job-name=" ++ task.slurm.job_name,
     "--output=" ++ pyPathJoin task.dirs.output task.slurm.output,
     "--error=" ++ pyPathJoin task.dirs.error task.slurm.error,
     "--nodes=" ++ toString task.slurm.nodes,
     "--mem=" ++ task.slurm.mem,
     "--cpus-per-task=" ++ toString task.slurm.cpus_per_task,
     "--ntasks-per-node=" ++ toString task.slurm.ntasks_per_node,
     "--partition=" ++ task.slurm.partition]
    ++ (if task.slurm.time != "" then ["--time=" ++ task.slurm.time] else [])
  match define_task_cmd task.name task.params with
  | .error e => .error e
  | .ok task_cmd =>
    .ok [dir_cmd,
         String.intercalate " "
           (flag_comps ++ ["--wrap=\x27" ++ task_cmd ++ "\x27"])]

/-- task_submission.py lines 91-122: `define_sbatch_cmd_for_task`.  The
function assembles `cmd_comps` in full (so an unregistered task name
still raises), but line 120, `cmd = ' ; '.join(cmd_comps)`, is
commented out and line 121 returns the hard-coded string
`echo $UID`. -/
def define_sbatch_cmd_for_task (task : Task) : Except PyErr String :=
  match sbatch_cmd_comps task with
  | .error e => .error e
  | .ok _ => .ok "echo $UID"

/-- The command that line 120 of task_submission.py would have
produced: `' ; '.join(cmd_comps)`.  This is the composed script that
the specification describes; the source computes its pieces and then
discards them. -/
def composed_sbatch_cmd_for_task (task : Task) : Except PyErr String :=
  match sbatch_cmd_comps task with
  | .error e => .error e
  | .ok cmd_comps => .ok (String.intercalate " ; " cmd_comps)

/-- task_submission.py lines 133-150: `send_sbatch_cmd`.  The SSH
channel is the oracle `sshExec` from the command to the pair of its
decoded standard output and standard error.  `int(stdout)` raising
`ValueError` is caught and yields `BAD_SLURM_JOB_ID`; then any
non-empty standard error also yields `BAD_SLURM_JOB_ID`; otherwise the
parsed job id is returned.  The explicit `ValueError` for an empty
command (line 135) is uncaught. -/
def send_sbatch_cmd (sshExec : String → String × String) (cmd : String) :
    Except PyErr Int :=
  if cmd == "" then .error (.valueError "Command cannot be empty")
  else
    let out := sshExec cmd
    match pyIntParse out.fst with
    | none => .ok BAD_SLURM_JOB_ID
    | some job_id => if out.snd != "" then .ok BAD_SLURM_JOB_ID else .ok job_id

/-- task_submission.py lines 86-89: `submit_slurm_task`. -/
def submit_slurm_task (sshExec : String → String × String) (task : Task) :
    Except PyErr Int :=
  match define_sbatch_cmd_for_task task with
  | .error e => .error e
  | .ok cmd =>
    if cmd != "" then send_sbatch_cmd sshExec cmd else .ok BAD_SLURM_JOB_ID

/-- task_submission.py lines 165-166: `is_task_valid` checks that the
five required keys are present in the task dictionary.  In this typed
model every `Task` value carries all five fields, so the check always
passes; the source performs no other validation here (in particular it
does not check that the name is registered). -/
def is_task_valid (_task : Task) : Bool :=
  [true, true, true, true, true].all (fun b => b)

/-- The responses of the `POST /submit/` handler. -/
inductive SubmitResp where
  | noTask
  | invalidTask
  | submitFailed
  | monitorFailed
  | okTask (task : Task)
deriving Repr, DecidableEq

/-- The HTTP status of a `POST /submit/` response. -/
def SubmitResp.status : SubmitResp → Nat
  | .noTask => 400
  | .invalidTask => 400
  | .submitFailed => 400
  | .monitorFailed => 400
  | .okTask _ => 200

/-- task_submission.py lines 33-76: the `POST /submit/` handler.
`sshExec` is the submission channel used by `send_sbatch_cmd`; `exec`
is the monitoring channel used by `monitor_new_slurm_job`.  The body
may lack the `task` member (`none`).  An exception raised anywhere in
the handler is uncaught (there is no surrounding handler in the
source), which the `Except` error channel records. -/
def submit_post (sshExec : String → String × String) (exec : String → String)
    (store : List TrackedJob) (task : Option Task) :
    Except PyErr (SubmitResp × List TrackedJob × List Event) :=
  match task with
  | none => .ok (.noTask, store, [])
  | some task =>
    if ¬ is_task_valid task then .ok (.invalidTask, store, [])
    else
      match submit_slurm_task sshExec task with
      | .error e => .error e
      | .ok submit_job_id =>
        if submit_job_id == BAD_SLURM_JOB_ID then .ok (.submitFailed, store, [])
        else
          -- the job dict {slurm_job_id, slurm_job_status, task}; only
          -- slurm_job_id and task are read by monitor_new_slurm_job
          match monitor_new_slurm_job exec store
                  { slurm_job_id := submit_job_id, task := task } with
          | .error e => .error e
          | .ok (store2, events, true) => .ok (.okTask task, store2, events)
          | .ok (store2, events, false) => .ok (.monitorFailed, store2, events)

/-! ## Concrete fixtures -/

/-- The task envelope posted by `tests/test_task_submission.py`. -/
def testTask : Task :=
  { name := "echo_hello_world",
    params := ["-e", "\"Hello world!\t(sent to $USER)\n\""],
    uuid := "123e4567-e89b-12d3-a456-426614174000",
    slurm :=
      { job_name := "dt-slurm-proxy.hello_world",
        output := "dt-slurm-proxy.hello_world.output.txt",
        error := "dt-slurm-proxy.hello_world.error.txt",
        nodes := 1, mem := "1G", cpus_per_task := 1, ntasks_per_node := 1,
        partition := "queue1", time := "00:30:00" },
    dirs :=
      { input := "/home/areynolds/dt-slurm-proxy/input",
        output := "/home/areynolds/dt-slurm-proxy/output",
        error := "/home/areynolds/dt-slurm-proxy/error" } }

/-- The test envelope with an unregistered task name. -/
def badTask : Task := { testTask with name := "not_a_task" }

/-- An SSH oracle whose every command produces empty output. -/
def noOutputExec : String → String := fun _ => ""

/-- Oracle reporting job 654 in state SUSPENDED. -/
def execSuspended654 : String → String := fun _ => "654|jn|SUSPENDED|u|p|t|s|e|el"

/-- Tracked job 654, last stored as RUNNING. -/
def job654 : TrackedJob :=
  { slurm_job_id := 654, slurm_job_state := "RUNNING", task := testTask }

/-- Oracle reporting job 321 in state SUSPENDED. -/
def execSuspended321 : String → String := fun _ => "321|jn|SUSPENDED|u|p|t|s|e|el"

/-- Tracked job 321, last stored as RUNNING. -/
def job321 : TrackedJob :=
  { slurm_job_id := 321, slurm_job_state := "RUNNING", task := testTask }

/-- The accounting dictionary parsed for job 321. -/
def dict321 : PyDict :=
  [("job_id", "321"), ("job_name", "jn"), ("state", "SUSPENDED"),
   ("user", "u"), ("partition", "p"), ("time", "t"), ("start", "s"),
   ("end", "e"), ("elapsed", "el")]

/-- Tracked job 888, last stored as PENDING (scenario S4 of the spec). -/
def job888 : TrackedJob :=
  { slurm_job_id := 888, slurm_job_state := "PENDING", task := testTask }

/-- Tracked job 999, last stored as RUNNING. -/
def job999 : TrackedJob :=
  { slurm_job_id := 999, slurm_job_state := "RUNNING", task := testTask }

/-- Tracked job 777, last stored as RUNNING. -/
def job777 : TrackedJob :=
  { slurm_job_id := 777, slurm_job_state := "RUNNING", task := testTask }

/-- Tracked job 42, last stored as RUNNING. -/
def job42 : TrackedJob :=
  { slurm_job_id := 42, slurm_job_state := "RUNNING", task := testTask }

/-- Oracle that reports job 999 as COMPLETED and produces empty output
for every other command. -/
def execCompleted999 : String → String :=
  fun c => if c = sacctJobCmd 999 then "999|j2|COMPLETED|u|p|t|s|e|el" else ""

/-- Oracle reporting job 555 in state COMPLETED. -/
def execCompleted555 : String → String := fun _ => "555|j|COMPLETED|u|p|t|s|e|el"

/-- Tracked job 555, last stored as RUNNING. -/
def job555 : TrackedJob :=
  { slurm_job_id := 555, slurm_job_state := "RUNNING", task := testTask }

/-- The accounting dictionary parsed for job 555. -/
def dict555 : PyDict :=
  [("job_id", "555"), ("job_name", "j"), ("state", "COMPLETED"),
   ("user", "u"), ("partition", "p"), ("time", "t"), ("start", "s"),
   ("end", "e"), ("elapsed", "el")]

/-- The test envelope with a second unregistered task name. -/
def badTask2 : Task := { testTask with name := "sort_bam" }

/-- The script that line 120 of task_submission.py would compose for
the test envelope, written out in full. -/
def c2_expected_script : String :=
  "mkdir -p /home/areynolds/dt-slurm-proxy/input ; mkdir -p /home/areynolds/dt-slurm-proxy/output ; mkdir -p /home/areynolds/dt-slurm-proxy/error ; sbatch --parsable --job-name=dt-slurm-proxy.hello_world --output=/home/areynolds/dt-slurm-proxy/output/dt-slurm-proxy.hello_world.output.txt --error=/home/areynolds/dt-slurm-proxy/error/dt-slurm-proxy.hello_world.error.txt --nodes=1 --mem=1G --cpus-per-task=1 --ntasks-per-node=1 --partition=queue1 --time=00:30:00 --wrap=\x27echo -e \"Hello world!\t(sent to $USER)\n\"\x27"

/-! ## Shared lemmas -/

/-- Reduction of the per-job reconciliation step when the scheduler
query returns a dictionary whose `state` key reads successfully. -/
theorem pollOneJob_query_some (exec : String → String)
    (store : List TrackedJob) (job : TrackedJob) (d : PyDict) (cur : String)
    (h1 : (get_current_slurm_job_metadata_by_slurm_job_id exec
            (some job.slurm_job_id)).fst = .ok (some d))
    (h2 : pyGet d "state" = .ok cur) :
    pollOneJob exec store job =
      if job.slurm_job_state != cur then
        let ns := if SLURM_STATES_ALLOWED.contains cur then cur
                  else SLURM_STATE_UNKNOWN
        if SLURM_STATE_END_STATES.contains ns then
          .ok ((remove_job_from_monitor_db_by_slurm_job_id store
                 job.slurm_job_id).fst,
               [.notify job.slurm_job_id job.slurm_job_state ns,
                .removeFromDb job.slurm_job_id])
        else
          .ok ((update_job_state_in_monitor_db store job.slurm_job_id ns).fst,
               [.updateStateInDb job.slurm_job_id ns])
      else .ok (store, []) := by
  unfold pollOneJob
  rw [h1]
  simp [pySubscript, h2]

/-! ## Theorems for the claims -/

/-- C1 counterexample: the claim is false on the code.  With job 654
stored as RUNNING and the scheduler reporting SUSPENDED — a canonical,
supposedly non-terminal state — one reconciliation pass emits the
notification and removes the record instead of keeping the job under
monitoring, because `SLURM_STATE_END_STATES` contains SUSPENDED. -/
theorem suspended_job_removed_counterexample :
    poll_slurm_jobs execSuspended654 [job654] =
      { store := [],
        events := [.notify 654 "RUNNING" "SUSPENDED", .removeFromDb 654],
        uncaught := none }
    ∧ "SUSPENDED" ∈ SLURM_STATE_END_STATES := ⟨rfl, by decide⟩

/-- C1 (amended): the reconciler and the registration path treat a
canonical state as terminal (notification and removal) exactly when it
is in SLURM_STATE_END_STATES = {COMPLETED, FAILED, CANCELLED,
SUSPENDED}; in particular a job observed in SUSPENDED is notified and
removed, not kept under monitoring. -/
theorem end_states_include_suspended :
    (∀ s : String, s ∈ SLURM_STATE_END_STATES ↔
      (s = "COMPLETED" ∨ s = "FAILED" ∨ s = "CANCELLED" ∨ s = "SUSPENDED"))
    ∧ (∀ (exec : String → String) (store : List TrackedJob)
        (job : TrackedJob) (d : PyDict),
        (get_current_slurm_job_metadata_by_slurm_job_id exec
          (some job.slurm_job_id)).fst = .ok (some d) →
        pyGet d "state" = .ok "SUSPENDED" →
        job.slurm_job_state ≠ "SUSPENDED" →
        pollOneJob exec store job =
          .ok ((remove_job_from_monitor_db_by_slurm_job_id store
                 job.slurm_job_id).fst,
               [.notify job.slurm_job_id job.slurm_job_state "SUSPENDED",
                .removeFromDb job.slurm_job_id]))
    ∧ (∀ (exec : String → String) (store : List TrackedJob)
        (job : MonitorJob) (d : PyDict),
        (get_current_slurm_job_metadata_by_slurm_job_id exec
          (some job.slurm_job_id)).fst = .ok (some d) →
        pyGet d "state" = .ok "SUSPENDED" →
        monitor_new_slurm_job exec store job =
          .ok (store, [.notify job.slurm_job_id SLURM_STATE_UNKNOWN
                        "SUSPENDED"], true)) := by
  refine ⟨fun s => by simp [SLURM_STATE_END_STATES], ?_, ?_⟩
  · intro exec store job d h1 h2 h3
    rw [pollOneJob_query_some exec store job d "SUSPENDED" h1 h2]
    simp [bne_iff_ne, h3, SLURM_STATES_ALLOWED, SLURM_STATE,
          SLURM_STATE_END_STATES]
  · intro exec store job d h1 h2
    unfold monitor_new_slurm_job
    rw [h1]
    simp [h2, SLURM_STATE_END_STATES]

/-- C1 witness for the amended theorem, at job 321 observed in
SUSPENDED. -/
theorem end_states_include_suspended_witness :
    pollOneJob execSuspended321 [job321] job321 =
      .ok ([], [.notify 321 "RUNNING" "SUSPENDED", .removeFromDb 321]) :=
  end_states_include_suspended.2.1 execSuspended321 [job321] job321 dict321
    rfl rfl (by decide)

/-- C2: the command actually handed to `send_sbatch_cmd` for the test
envelope is the hard-coded debugging string `echo $UID`, not the
composed mkdir-and-sbatch script that the function assembles and
discards (task_submission.py lines 120-121). -/
theorem submit_cmd_is_echo_uid :
    define_sbatch_cmd_for_task testTask = .ok "echo $UID"
    ∧ composed_sbatch_cmd_for_task testTask = .ok c2_expected_script
    ∧ "echo $UID" ≠ c2_expected_script := ⟨rfl, rfl, by decide⟩

/-- C3: scenario S4 evaluated on the code.  With job 888 stored as
PENDING and the accounting query returning empty output (so the query
returns None), one reconciliation pass raises an uncaught TypeError at
task_monitoring.py line 285 — the subscript of None runs before the
None check at line 287 — leaving the record in the store and emitting
nothing, instead of deleting the record and continuing. -/
theorem poll_forgotten_job_raises :
    poll_slurm_jobs noOutputExec [job888] =
      { store := [job888], events := [], uncaught := some .typeError }
    ∧ (get_current_slurm_job_metadata_by_slurm_job_id noOutputExec
        (some 888)).fst = .ok none := ⟨rfl, rfl⟩

/-- C4 counterexample: the claim is false on the code.  With jobs 888
and 999 tracked and the scheduler answering only for 999 (reporting it
COMPLETED), the error raised while processing job 888 aborts the whole
pass: nothing is emitted and job 999 is not processed, although a pass
over job 999 alone would notify and remove it. -/
theorem poll_aborts_midpass :
    poll_slurm_jobs execCompleted999 [job888, job999] =
      { store := [job888, job999], events := [], uncaught := some .typeError }
    ∧ poll_slurm_jobs execCompleted999 [job999] =
      { store := [],
        events := [.notify 999 "RUNNING" "COMPLETED", .removeFromDb 999],
        uncaught := none } := ⟨rfl, rfl⟩

/-- C4 (amended): a reconciliation pass aborts on the first per-job
error.  When processing of the first tracked job raises anything other
than a PyMongoError — the only exception the pass-level handler
catches — the error propagates out of `poll_slurm_jobs` and the
remaining tracked jobs are not processed in that pass. -/
theorem poll_abort_propagation (exec : String → String) (j : TrackedJob)
    (rest : List TrackedJob) (e : PyErr)
    (h1 : pollOneJob exec (j :: rest) j = .error e)
    (h2 : e ≠ .pyMongoError) :
    poll_slurm_jobs exec (j :: rest) =
      { store := j :: rest, events := [], uncaught := some e } := by
  unfold poll_slurm_jobs pollJobs
  rw [h1]
  cases e with
  | typeError => rfl
  | keyError k => rfl
  | valueError m => rfl
  | pyMongoError => exact absurd rfl h2

/-- C4 witness for the amended theorem: with job 777 tracked and the
accounting output empty, the pass ends with the uncaught TypeError. -/
theorem poll_abort_propagation_witness :
    poll_slurm_jobs noOutputExec [job777] =
      { store := [job777], events := [], uncaught := some .typeError } :=
  poll_abort_propagation noOutputExec job777 [] .typeError rfl (by decide)

/-- C5 counterexample: the claim is false on the code.  With job 42
already tracked, `add_job_to_monitor_db` performs no insertion (the
store is returned unchanged) yet still returns `True`, where the claim
requires `False`. -/
theorem add_job_true_when_present :
    add_job_to_monitor_db noOutputExec 42 "PENDING" testTask [job42] =
      .ok ([job42], true)
    ∧ (find_one [job42] 42).isSome = true := ⟨rfl, rfl⟩

/-- C5 (amended): for a state other than UNKNOWN, insertion occurs iff
no record with the job id exists, but the boolean result is `true` in
both cases — it reports only the absence of a store error, not whether
an insertion occurred. -/
theorem add_job_insert_iff_absent (exec : String → String)
    (slurm_job_id : Int) (st : String) (task : Task)
    (store : List TrackedJob) (h : st ≠ SLURM_STATE_UNKNOWN) :
    (find_one store slurm_job_id = none →
      add_job_to_monitor_db exec slurm_job_id st task store =
        .ok (insert_one store
              { slurm_job_id := slurm_job_id, slurm_job_state := st,
                task := task }, true))
    ∧ (∀ j, find_one store slurm_job_id = some j →
        add_job_to_monitor_db exec slurm_job_id st task store =
          .ok (store, true)) := by
  have hb : (st == SLURM_STATE_UNKNOWN) = false := by
    simp [h]
  constructor
  · intro hf
    simp [add_job_to_monitor_db, hb, hf]
  · intro j hj
    simp [add_job_to_monitor_db, hb, hj]

/-- C5 witness for the amended theorem: inserting job 43 into the empty
store adds the record and returns `true`. -/
theorem add_job_insert_iff_absent_witness :
    add_job_to_monitor_db noOutputExec 43 "PENDING" testTask [] =
      .ok ([{ slurm_job_id := 43, slurm_job_state := "PENDING",
              task := testTask }], true) :=
  (add_job_insert_iff_absent noOutputExec 43 "PENDING" testTask []
    (by decide)).1 rfl

/-- C6 counterexample: the claim is false on the code.  A submission
envelope with every required key but the unregistered name
`not_a_task` makes the submit endpoint raise an uncaught ValueError
(from `define_task_cmd`) instead of returning an HTTP 400 response. -/
theorem submit_unknown_task_raises :
    submit_post (fun _ => ("", "")) noOutputExec [] (some badTask) =
      .error (.valueError "Task not_a_task is not defined")
    ∧ TASK_DESCRIPTION.find? (fun p => p.fst == badTask.name) = none :=
  ⟨rfl, rfl⟩

/-- C6 (amended): for every envelope whose task name is not in the task
registry, the submit endpoint raises an unhandled ValueError that
escapes the handler (a server error), not an HTTP 400 validation
response: `is_task_valid` checks only key presence, and nothing
catches the raise from `define_task_cmd`. -/
theorem submit_unknown_task_propagates (sshExec : String → String × String)
    (exec : String → String) (store : List TrackedJob) (task : Task)
    (h : TASK_DESCRIPTION.find? (fun p => p.fst == task.name) = none) :
    submit_post sshExec exec store (some task) =
      .error (.valueError ("Task " ++ task.name ++ " is not defined")) := by
  simp [submit_post, is_task_valid, submit_slurm_task,
        define_sbatch_cmd_for_task, sbatch_cmd_comps, define_task_cmd, h]

/-- C6 witness for the amended theorem, at the unregistered name
`sort_bam`. -/
theorem submit_unknown_task_propagates_witness :
    submit_post (fun _ => ("", "")) noOutputExec [] (some badTask2) =
      .error (.valueError "Task sort_bam is not defined") :=
  submit_unknown_task_propagates (fun _ => ("", "")) noOutputExec []
    badTask2 rfl

/-- C7: the query-by-state endpoint evaluated at the canonical state
CANCELLED.  Because the `SLURM_STATE` table lacks a CANCELLED entry,
`SLURM_STATES_ALLOWED` does not contain it and the request is rejected
with 400 "Invalid state key" — although `SLURM_STATE_END_STATES`
itself names CANCELLED as an end state. -/
theorem cancelled_state_rejected :
    get_by_slurm_job_state noOutputExec "CANCELLED" =
      .ok (400, none, some "Invalid state key")
    ∧ SLURM_STATES_ALLOWED.contains "CANCELLED" = false
    ∧ SLURM_STATE_END_STATES.contains "CANCELLED" = true := ⟨rfl, rfl, rfl⟩

/-- C8: for a non-empty command, `send_sbatch_cmd` yields the sentinel
`BAD_SLURM_JOB_ID = -1` whenever the remote command produces non-empty
standard error or standard output that does not parse as a single
integer, and otherwise returns the parsed job id. -/
theorem send_sbatch_parsable (sshExec : String → String × String)
    (cmd : String) (h : cmd ≠ "") :
    ((sshExec cmd).snd ≠ "" ∨ pyIntParse (sshExec cmd).fst = none →
      send_sbatch_cmd sshExec cmd = .ok BAD_SLURM_JOB_ID)
    ∧ (∀ n : Int, pyIntParse (sshExec cmd).fst = some n →
        (sshExec cmd).snd = "" →
        send_sbatch_cmd sshExec cmd = .ok n) := by
  have hb : (cmd == "") = false := by simp [h]
  constructor
  · rintro (he | hp)
    · cases hparse : pyIntParse (sshExec cmd).fst with
      | none => simp [send_sbatch_cmd, hb, hparse]
      | some job_id => simp [send_sbatch_cmd, hb, hparse, bne_iff_ne, he]
    · simp [send_sbatch_cmd, hb, hp]
  · intro n hp he
    simp [send_sbatch_cmd, hb, hp, he]

/-- C8 witness: standard output `4242` with empty standard error
returns job id 4242. -/
theorem send_sbatch_parsable_witness :
    send_sbatch_cmd (fun _ => ("4242\n", "")) "echo $UID" = .ok 4242 :=
  (send_sbatch_parsable (fun _ => ("4242\n", "")) "echo $UID"
    (by decide)).2 4242 rfl rfl

/-- C9: in the per-job reconciliation step, when the observed canonical
state is terminal and differs from the stored state, the events
produced are exactly the notification followed by the store deletion —
the notification for the terminal transition is emitted strictly
before the record is removed. -/
theorem notify_before_delete (exec : String → String)
    (store : List TrackedJob) (job : TrackedJob) (d : PyDict)
    (cur ns : String)
    (h1 : (get_current_slurm_job_metadata_by_slurm_job_id exec
            (some job.slurm_job_id)).fst = .ok (some d))
    (h2 : pyGet d "state" = .ok cur)
    (h3 : job.slurm_job_state ≠ cur)
    (h4 : ns = if SLURM_STATES_ALLOWED.contains cur then cur
               else SLURM_STATE_UNKNOWN)
    (h5 : SLURM_STATE_END_STATES.contains ns = true) :
    pollOneJob exec store job =
      .ok ((remove_job_from_monitor_db_by_slurm_job_id store
             job.slurm_job_id).fst,
           [.notify job.slurm_job_id job.slurm_job_state ns,
            .removeFromDb job.slurm_job_id]) := by
  rw [pollOneJob_query_some exec store job d cur h1 h2]
  have hb : (job.slurm_job_state != cur) = true := by
    simp [bne_iff_ne, h3]
  rw [hb]
  simp only [if_true]
  rw [← h4, h5]
  simp

/-- C9 witness: job 555 stored as RUNNING and observed COMPLETED is
notified and then removed. -/
theorem notify_before_delete_witness :
    pollOneJob execCompleted555 [job555] job555 =
      .ok ([], [.notify 555 "RUNNING" "COMPLETED", .removeFromDb 555]) :=
  notify_before_delete execCompleted555 [job555] job555 dict555
    "COMPLETED" "COMPLETED" rfl rfl (by decide) rfl rfl

/-- C10: for a falsy job id (Python `None` or `0`), the scheduler query
returns None at once and executes no remote command; the returned value
is the same `None` produced for a non-falsy id whose accounting output
is empty, so the two are indistinguishable at the interface. -/
theorem falsy_job_id_returns_none (exec : String → String) :
    get_current_slurm_job_metadata_by_slurm_job_id exec none = (.ok none, [])
    ∧ get_current_slurm_job_metadata_by_slurm_job_id exec (some 0) =
        (.ok none, [])
    ∧ (∀ i : Int, i ≠ 0 → i ≠ SLURM_TEST_JOB_ID →
        pyStrip (exec (sacctJobCmd i)) = "" →
        (get_current_slurm_job_metadata_by_slurm_job_id exec (some i)).fst =
          .ok none) := by
  refine ⟨rfl, rfl, fun i h0 ht he => ?_⟩
  simp [get_current_slurm_job_metadata_by_slurm_job_id, h0, ht, he]

/-- C10 witness: the query for id 7 with empty accounting output, and
for a `None` id, both return None; for the `None` id no command runs. -/
theorem falsy_job_id_returns_none_witness :
    get_current_slurm_job_metadata_by_slurm_job_id noOutputExec none =
      (.ok none, [])
    ∧ (get_current_slurm_job_metadata_by_slurm_job_id noOutputExec
        (some 7)).fst = .ok none :=
  ⟨(falsy_job_id_returns_none noOutputExec).1,
   (falsy_job_id_returns_none noOutputExec).2.2 7 (by decide) (by decide) rfl⟩

end DtSlurmProxy
